import Mathlib

/-!
Verification development for the bevy-scratchpad repository
(`src/main.rs`): a Bevy demonstration app that sets up a 3D scene
(camera, plane, cube with a torus child, light) and a UI with two
buttons, and declares — but does not implement — an entity sub-tree
snapshot/restore mechanism around a single-slot `SceneStoreResource`.

The development has two parts:

* `Main`: a shallow embedding of the code actually present in
  `src/main.rs` — the `AppId`/`Uuid` identity component, the
  `SceneStoreResource` state enum, the two startup systems
  (`sys_setup_ui`, `sys_setup_scene`) and the single registered click
  handler (`sys_on_to_dynamic_scene`, whose body is an unimplemented
  stub: it builds a `SystemState`, reads the store resource and an
  `(Entity, &AppId)` query, and performs no mutation; the rest of the
  body is commented out in the source).  Rendering-only data (meshes,
  materials, transforms, light parameters, UI styling) is out of the
  spec's scope and is not part of the state.

* `SpecModel`: the extract/restore operations are missing from the
  source (only their data declarations and the stub caller exist), so
  they are modelled from the spec (§4.2–§4.4) and the spec-level
  claims are settled against that model.
-/

namespace Main

/-- `bevy::utils::Uuid`: a 128-bit identifier, embedded as a natural
number `< 2^128`.  `Uuid::default()` is the nil UUID (all zero bits). -/
abbrev Uuid := Nat

/-- `Uuid::default()`: the nil UUID. -/
def Uuid.default : Uuid := 0

/-- `struct AppId(Uuid)` — the stable-identity component
(`#[derive(Component, Reflect, Default)]`). -/
structure AppId where
  uuid : Uuid
deriving DecidableEq, Repr

/-- `AppId::default()` wraps `Uuid::default()`, i.e. the nil UUID. -/
def AppId.default : AppId := ⟨Uuid.default⟩

/-- `bevy::scene::DynamicScene`: an engine-owned serialized scene.  The
program never constructs one (the only code that would,
`sys_on_to_dynamic_scene`, is commented out), so only its presence as
the payload of `SceneStoreResource::Stored` matters here; its content
is embedded as an opaque list of serialized entity records. -/
structure DynamicScene where
  entities : List (Nat × List Nat)
deriving DecidableEq, Repr

/-- `enum SceneStoreResource` from `src/main.rs` lines 43–58:
`Empty` (the `#[default]` variant), `ReadyToSave { target_appid }`,
and `Stored { parent_appid, target_appId, scene }`. -/
inductive SceneStoreResource where
  | Empty
  | ReadyToSave (target_appid : AppId)
  | Stored (parent_appid : AppId) (target_appId : AppId) (scene : DynamicScene)
deriving DecidableEq, Repr

/-- `SceneStoreResource::default()` is the `Empty` variant. -/
def SceneStoreResource.default : SceneStoreResource := .Empty

/-- Which bundle an entity was spawned from (enough to identify each
spawn site of the two startup systems). -/
inductive EntityKind where
  | camera | plane | cube | torus | light
  | uiRoot | toSceneButton | toSceneText | fromSceneButton | fromSceneText
deriving DecidableEq, Repr

/-- A live ECS entity as far as the spec-relevant data goes: its
engine handle, its spawn site, its optional `AppId` component, its
optional parent (an engine handle), and whether an
`On::<Pointer<Click>>::run(sys_on_to_dynamic_scene)` handler is
attached.  Rendering components (mesh, material, transform, light and
UI styling) are outside the spec's scope (§1) and carry no
spec-relevant state. -/
structure SpawnedEntity where
  eid : Nat
  kind : EntityKind
  appId : Option AppId
  parent : Option Nat
  clickHandler : Bool
deriving DecidableEq, Repr

/-- The ECS world state the claims are about: the
`SceneStoreResource`, the live entities, and the engine's fresh-handle
counter. -/
structure AppWorld where
  sceneStore : SceneStoreResource
  entities : List SpawnedEntity
  nextEid : Nat
deriving DecidableEq, Repr

/-- `main()` before any system runs: `insert_resource
(SceneStoreResource::default())` and no spawned entities. -/
def initWorld : AppWorld :=
  { sceneStore := SceneStoreResource.default, entities := [], nextEid := 0 }

/-- `sys_setup_ui` (lines 60–107): spawns the UI node, the
"To Dynamic Scene" button — the only entity carrying an
`On::<Pointer<Click>>::run(sys_on_to_dynamic_scene)` handler — its
text, the "From Dynamic Scene" button (no handler) and its text.
None of these carry an `AppId`; the store is not touched. -/
def sys_setup_ui (w : AppWorld) : AppWorld :=
  let n := w.nextEid
  { sceneStore := w.sceneStore
    entities := w.entities ++
      [ ⟨n, .uiRoot, none, none, false⟩,
        ⟨n + 1, .toSceneButton, none, some n, true⟩,
        ⟨n + 2, .toSceneText, none, some (n + 1), false⟩,
        ⟨n + 3, .fromSceneButton, none, some n, false⟩,
        ⟨n + 4, .fromSceneText, none, some (n + 3), false⟩ ]
    nextEid := n + 5 }

/-- `sys_setup_scene` (lines 109–173): spawns the camera (no `AppId`),
the plane, the cube, the torus as a child of the cube — each of the
latter three with `AppId::default()` — and the point light (no
`AppId`).  The store is not touched. -/
def sys_setup_scene (w : AppWorld) : AppWorld :=
  let n := w.nextEid
  { sceneStore := w.sceneStore
    entities := w.entities ++
      [ ⟨n, .camera, none, none, false⟩,
        ⟨n + 1, .plane, some AppId.default, none, false⟩,
        ⟨n + 2, .cube, some AppId.default, none, false⟩,
        ⟨n + 3, .torus, some AppId.default, some (n + 2), false⟩,
        ⟨n + 4, .light, none, none, false⟩ ]
    nextEid := n + 5 }

/-- `sys_on_to_dynamic_scene` (lines 175–184): the click handler of the
"To Dynamic Scene" button.  Its body constructs a
`SystemState<(ResMut<SceneStoreResource>, Query<(Entity, &AppId)>)>`
and reads both, but mutates nothing — the extraction code is commented
out — so on the embedded state it is the identity. -/
def sys_on_to_dynamic_scene (w : AppWorld) : AppWorld := w

/-- One scheduler step: running one of the app's three systems (the
two `Startup` systems and the click handler, the only systems
registered in `main()`). -/
inductive SysStep : AppWorld → AppWorld → Prop where
  | setupUi (w : AppWorld) : SysStep w (sys_setup_ui w)
  | setupScene (w : AppWorld) : SysStep w (sys_setup_scene w)
  | click (w : AppWorld) : SysStep w (sys_on_to_dynamic_scene w)

/-- World states reachable by executing the program's systems from the
initial state, in any order and multiplicity (this over-approximates
the real schedule, where each startup system runs exactly once). -/
inductive Reach : AppWorld → Prop where
  | init : Reach initWorld
  | step {w w' : AppWorld} : Reach w → SysStep w w' → Reach w'

/-- The world after both startup systems have run in the order
`(sys_setup_ui, sys_setup_scene)`. -/
def startupWorld : AppWorld := sys_setup_scene (sys_setup_ui initWorld)

end Main

namespace SpecModel

/-!
Modelled from the spec: the extract/restore subsystem of §2–§4.  The
source only declares its data (`SceneStoreResource`, `AppId`) and the
stub caller `sys_on_to_dynamic_scene`; the operation bodies are
missing from `src/`, so they are defined here following §4.2 (state
machine), §4.3 (extract) and §4.4 (restore).  A `StableId` is the
128-bit value of §3, embedded as `Nat`; a component payload is a kind
tag plus payload bytes (§6); the registry of reflected component
kinds (§7, §9) is a list of kind tags.
-/

/-- A component payload: kind tag paired with payload bytes. -/
abbrev Comp := Nat × List Nat

mutual
/-- A live entity sub-tree: engine handle, StableId, ordered component
payloads, ordered children (the host engine's scene graph view needed
by the operations). -/
inductive Tree where
  | node (handle : Nat) (sid : Nat) (comps : List Comp) (children : Forest)
deriving DecidableEq, Repr
/-- An ordered forest of live sub-trees (the children list of a node,
or the scene roots). -/
inductive Forest where
  | nil
  | cons (head : Tree) (tail : Forest)
deriving DecidableEq, Repr
end

mutual
/-- `SceneNode` (§3): StableId, ordered component payloads, ordered
child `SceneNode`s — the serializable snapshot element. -/
inductive SceneNode where
  | node (sid : Nat) (comps : List Comp) (children : SceneNodes)
deriving DecidableEq, Repr
/-- An ordered list of `SceneNode`s. -/
inductive SceneNodes where
  | nil
  | cons (head : SceneNode) (tail : SceneNodes)
deriving DecidableEq, Repr
end

/-- The error taxonomy of §7. -/
inductive SErr where
  | NoSuchEntity | AlreadyStored | NothingStored | MalformedId | UnregisteredComponent
deriving DecidableEq, Repr

/-- The store states of §3: `Empty`, `ReadyToSave{target}`, and
`Stored{parent, target, snapshot}` where the snapshot is the root
`SceneNode` together with the StableId of the original parent
(`none` if the extracted root was a scene root). -/
inductive Store where
  | Empty
  | ReadyToSave (target : Nat)
  | Stored (parent : Option Nat) (target : Nat) (snapshot : SceneNode)
deriving DecidableEq, Repr

/-- The spec-level world: the single-slot store, the live scene (an
ordered forest of root sub-trees) and the engine's fresh-handle
counter. -/
structure SpecWorld where
  store : Store
  roots : Forest
  nextHandle : Nat
deriving DecidableEq, Repr

/-- The StableId at a tree's root. -/
def Tree.sid : Tree → Nat
  | .node _ s _ _ => s

mutual
/-- Number of entities in a live sub-tree. -/
def sizeT : Tree → Nat
  | .node _ _ _ cs => 1 + sizeF cs
/-- Number of entities in a forest. -/
def sizeF : Forest → Nat
  | .nil => 0
  | .cons t rest => sizeT t + sizeF rest
end

mutual
/-- Number of nodes in a snapshot tree. -/
def sizeS : SceneNode → Nat
  | .node _ _ cs => 1 + sizeSs cs
/-- Number of nodes in a snapshot node list. -/
def sizeSs : SceneNodes → Nat
  | .nil => 0
  | .cons s rest => sizeS s + sizeSs rest
end

mutual
/-- §4.3 step 3: capture a live sub-tree into a `SceneNode` tree in
depth-first order, children in their existing sibling order, keeping
only component payloads whose kind tag is registered (unregistered
kinds are silently skipped, §7 policy). -/
def captureT (reg : List Nat) : Tree → SceneNode
  | .node _ s comps cs =>
    .node s (comps.filter (fun c => reg.contains c.1)) (captureF reg cs)
/-- Capture each tree of a forest, preserving order. -/
def captureF (reg : List Nat) : Forest → SceneNodes
  | .nil => .nil
  | .cons t rest => .cons (captureT reg t) (captureF reg rest)
end

mutual
/-- Forget the engine handles of a live sub-tree: its StableId
topology together with all component payloads.  Two live sub-trees are
isomorphic in the sense of §8 exactly when their shapes are equal. -/
def shapeT : Tree → SceneNode
  | .node _ s comps cs => .node s comps (shapeF cs)
/-- Shape of each tree of a forest. -/
def shapeF : Forest → SceneNodes
  | .nil => .nil
  | .cons t rest => .cons (shapeT t) (shapeF rest)
end

mutual
/-- Whether every component payload in a live sub-tree has a
registered kind. -/
def allRegT (reg : List Nat) : Tree → Bool
  | .node _ _ comps cs => comps.all (fun c => reg.contains c.1) && allRegF reg cs
/-- `allRegT` over a forest. -/
def allRegF (reg : List Nat) : Forest → Bool
  | .nil => true
  | .cons t rest => allRegT reg t && allRegF reg rest
end

mutual
/-- §4.4 step 2: recreate a snapshot node as a new live entity with a
fresh engine handle, preserving StableId, component payloads and
child structure; returns the new sub-tree and the next fresh handle. -/
def recreateS : SceneNode → Nat → Tree × Nat
  | .node s comps cs, h =>
    let r := recreateSs cs (h + 1)
    (.node h s comps r.1, r.2)
/-- Recreate a list of snapshot nodes in order, threading the fresh
handle counter. -/
def recreateSs : SceneNodes → Nat → Forest × Nat
  | .nil, h => (.nil, h)
  | .cons s rest, h =>
    let r1 := recreateS s h
    let r2 := recreateSs rest r1.2
    (.cons r1.1 r2.1, r2.2)
end

mutual
/-- Whether a live entity with the given StableId occurs in the
sub-tree (§4.2's resolving of a StableId to a live entity). -/
def containsSidT (sid : Nat) : Tree → Bool
  | .node _ s _ cs => s == sid || containsSidF sid cs
/-- `containsSidT` over a forest. -/
def containsSidF (sid : Nat) : Forest → Bool
  | .nil => false
  | .cons t rest => containsSidT sid t || containsSidF sid rest
end

/-- Detach the first sub-tree whose root carries the given StableId
from a forest, in depth-first order; `psid` is the StableId of the
forest's owning entity (`none` at the scene roots).  Returns the
detached root's parent StableId (§4.3 step 2), the detached sub-tree
and the forest with it removed (§4.3 step 4), or `none` when no live
entity carries the StableId. -/
def detachF (psid : Option Nat) (sid : Nat) : Forest → Option (Option Nat × Tree × Forest)
  | .nil => none
  | .cons (.node h s comps cs) rest =>
    if s = sid then some (psid, .node h s comps cs, rest)
    else
      match detachF (some s) sid cs with
      | some (p, sub, cs') => some (p, sub, .cons (.node h s comps cs') rest)
      | none =>
        match detachF psid sid rest with
        | some (p, sub, rest') => some (p, sub, .cons (.node h s comps cs) rest')
        | none => none

/-- §4.3 step 2 on its own: the parent StableId of the first entity
carrying the given StableId, in the same depth-first order as
`detachF` (`some none` when that entity is a scene root, `none` when
no entity carries the StableId). -/
def parentOfF (psid : Option Nat) (sid : Nat) : Forest → Option (Option Nat)
  | .nil => none
  | .cons (.node _ s _ cs) rest =>
    if s = sid then some psid
    else
      match parentOfF (some s) sid cs with
      | some p => some p
      | none => parentOfF psid sid rest

/-- Append a tree at the end of a forest (attach as last sibling). -/
def appendF : Forest → Tree → Forest
  | .nil, sub => .cons sub .nil
  | .cons t rest, sub => .cons t (appendF rest sub)

mutual
/-- Attach `sub` as the last child of the first entity carrying
StableId `tgt` inside a tree; `none` if no such entity is in the
tree. -/
def attachT (tgt : Nat) (sub : Tree) : Tree → Option Tree
  | .node h s comps cs =>
    if s = tgt then some (.node h s comps (appendF cs sub))
    else
      match attachF tgt sub cs with
      | some cs' => some (.node h s comps cs')
      | none => none
/-- `attachT` over a forest, keeping the first successful insertion. -/
def attachF (tgt : Nat) (sub : Tree) : Forest → Option Forest
  | .nil => none
  | .cons t rest =>
    match attachT tgt sub t with
    | some t' => some (.cons t' rest)
    | none =>
      match attachF tgt sub rest with
      | some rest' => some (.cons t rest')
      | none => none
end

/-- §4.4 steps 1 and 3: attach the recreated sub-tree as a child of
the resolved target, or at the scene root when no target is given or
the target StableId does not resolve to a live entity (the explicit
orphan fallback of §4.2). -/
def attach (target : Option Nat) (sub : Tree) (f : Forest) : Forest :=
  match target with
  | none => appendF f sub
  | some tgt =>
    match attachF tgt sub f with
    | some f' => f'
    | none => appendF f sub

mutual
/-- `memT sub t`: `sub` occurs as a sub-tree of `t` (possibly `t`
itself). -/
def memT (sub : Tree) : Tree → Prop
  | .node h s comps cs => Tree.node h s comps cs = sub ∨ memF sub cs
/-- `memF sub f`: `sub` occurs as a sub-tree of some tree of `f`. -/
def memF (sub : Tree) : Forest → Prop
  | .nil => False
  | .cons t rest => memT sub t ∨ memF sub rest
end

/-- The extract operation (§4.3) as a total step: on error the input
world is returned unchanged together with the error.  Fails with
`AlreadyStored` when the store is not `Empty` (§4.2), with
`NoSuchEntity` when the StableId resolves to no live entity;
otherwise detaches the picked sub-tree, captures it (registered kinds
only) and transitions the store to `Stored{parent, target,
snapshot}`. -/
def extract (reg : List Nat) (w : SpecWorld) (sid : Nat) : SpecWorld × Option SErr :=
  match w.store with
  | .Empty =>
    match detachF none sid w.roots with
    | none => (w, some .NoSuchEntity)
    | some (p, t, f') =>
      ({ store := .Stored p sid (captureT reg t), roots := f', nextHandle := w.nextHandle },
       none)
  | _ => (w, some .AlreadyStored)

/-- The restore operation (§4.4) as a total step: fails with
`NothingStored` unless the store is `Stored` (§4.2); otherwise
recreates the snapshot with fresh handles, attaches it under the
resolved target (scene root on `none` or a dead target) and resets
the store to `Empty`. -/
def restore (w : SpecWorld) (target : Option Nat) : SpecWorld × Option SErr :=
  match w.store with
  | .Stored _ _ snap =>
    let r := recreateS snap w.nextHandle
    ({ store := .Empty, roots := attach target r.1 w.roots, nextHandle := r.2 }, none)
  | _ => (w, some .NothingStored)

/-- A sample live sub-tree for concrete checks: StableId 7 with one
component of kind 1, and one child with StableId 8 (the cube/torus
pair of the startup scene, abstractly). -/
def sampleTree : Tree :=
  .node 10 7 [(1, [4, 2])] (.cons (.node 11 8 [(1, [9])] .nil) .nil)

/-- A sample scene: a single root with StableId 5 whose only child is
`sampleTree`. -/
def sampleScene : Forest :=
  .cons (.node 9 5 [(1, [1])] (.cons sampleTree .nil)) .nil

/-- A registry containing the single component kind 1. -/
def sampleReg : List Nat := [1]

/-- A sample world whose store is `Empty`. -/
def sampleWorld : SpecWorld := ⟨.Empty, sampleScene, 20⟩

/-- A sample world stuck in `ReadyToSave`. -/
def readyWorld : SpecWorld := ⟨.ReadyToSave 7, sampleScene, 20⟩

/-- The snapshot captured from `sampleTree` with registry
`sampleReg`. -/
def sampleSnap : SceneNode := captureT sampleReg sampleTree

/-- The world after successfully extracting StableId 7 from
`sampleWorld`. -/
def storedWorld : SpecWorld := (extract sampleReg sampleWorld 7).1

/-! Helper lemmas about the spec-model operations. -/

mutual
/-- When every component kind of a sub-tree is registered, capture
loses nothing: it is exactly the handle-forgetting shape. -/
theorem captureT_eq_shapeT (reg : List Nat) :
    ∀ (t : Tree), allRegT reg t = true → captureT reg t = shapeT t
  | .node h s comps cs, hr => by
    simp only [allRegT, Bool.and_eq_true] at hr
    simp only [captureT, shapeT]
    rw [List.filter_eq_self.mpr (List.all_eq_true.mp hr.1),
      captureF_eq_shapeF reg cs hr.2]
/-- Forest version of `captureT_eq_shapeT`. -/
theorem captureF_eq_shapeF (reg : List Nat) :
    ∀ (f : Forest), allRegF reg f = true → captureF reg f = shapeF f
  | .nil, _ => rfl
  | .cons t rest, hr => by
    simp only [allRegF, Bool.and_eq_true] at hr
    simp only [captureF, shapeF]
    rw [captureT_eq_shapeT reg t hr.1, captureF_eq_shapeF reg rest hr.2]
end

mutual
/-- Recreation restores exactly the snapshot's shape: StableId
topology and component payloads are preserved verbatim. -/
theorem shapeT_recreateS : ∀ (s : SceneNode) (h : Nat), shapeT (recreateS s h).1 = s
  | .node sid comps cs, h => by
    simp only [recreateS, shapeT]
    rw [shapeF_recreateSs]
/-- List version of `shapeT_recreateS`. -/
theorem shapeF_recreateSs : ∀ (cs : SceneNodes) (h : Nat), shapeF (recreateSs cs h).1 = cs
  | .nil, _ => rfl
  | .cons s rest, h => by
    simp only [recreateSs, shapeF]
    rw [shapeT_recreateS, shapeF_recreateSs]
end

mutual
/-- The size of a live sub-tree equals the size of its shape. -/
theorem sizeS_shapeT : ∀ (t : Tree), sizeS (shapeT t) = sizeT t
  | .node h s comps cs => by
    simp only [shapeT, sizeS, sizeT, sizeSs_shapeF cs]
/-- Forest version of `sizeS_shapeT`. -/
theorem sizeSs_shapeF : ∀ (f : Forest), sizeSs (shapeF f) = sizeF f
  | .nil => rfl
  | .cons t rest => by
    simp only [shapeF, sizeSs, sizeF, sizeS_shapeT t, sizeSs_shapeF rest]
end

/-- Every tree is a sub-tree of itself. -/
theorem memT_self : ∀ (t : Tree), memT t t
  | .node _ _ _ _ => Or.inl rfl

/-- Appending a tree to a forest makes it a member. -/
theorem memF_appendF : ∀ (f : Forest) (sub : Tree), memF sub (appendF f sub)
  | .nil, sub => Or.inl (memT_self sub)
  | .cons _ rest, sub => Or.inr (memF_appendF rest sub)

mutual
/-- A successful `attachT` contains the attached sub-tree. -/
theorem attachT_mem (tgt : Nat) (sub : Tree) :
    ∀ (t t' : Tree), attachT tgt sub t = some t' → memT sub t'
  | .node h s comps cs, t', ha => by
    unfold attachT at ha
    split at ha
    · obtain rfl := Option.some.inj ha
      exact Or.inr (memF_appendF cs sub)
    · split at ha
      · next cs' hcs =>
        obtain rfl := Option.some.inj ha
        exact Or.inr (attachF_mem tgt sub cs cs' hcs)
      · exact absurd ha (by simp)
/-- A successful `attachF` contains the attached sub-tree. -/
theorem attachF_mem (tgt : Nat) (sub : Tree) :
    ∀ (f f' : Forest), attachF tgt sub f = some f' → memF sub f'
  | .nil, f', ha => by simp [attachF] at ha
  | .cons t rest, f', ha => by
    unfold attachF at ha
    split at ha
    · next t' ht =>
      obtain rfl := Option.some.inj ha
      exact Or.inl (attachT_mem tgt sub t t' ht)
    · split at ha
      · next rest' hrest =>
        obtain rfl := Option.some.inj ha
        exact Or.inr (attachF_mem tgt sub rest rest' hrest)
      · exact absurd ha (by simp)
end

/-- The attached sub-tree is always a member of the result of
`attach`, whatever the target. -/
theorem attach_mem (target : Option Nat) (sub : Tree) (f : Forest) :
    memF sub (attach target sub f) := by
  unfold attach
  split
  · exact memF_appendF f sub
  · split
    · next f' hf => exact attachF_mem _ _ f f' hf
    · exact memF_appendF f sub

mutual
/-- When no live entity of the tree carries the target StableId,
`attachT` fails. -/
theorem attachT_none (tgt : Nat) (sub : Tree) :
    ∀ (t : Tree), containsSidT tgt t = false → attachT tgt sub t = none
  | .node h s comps cs, hc => by
    simp only [containsSidT, Bool.or_eq_false_iff, beq_eq_false_iff_ne, ne_eq] at hc
    unfold attachT
    rw [if_neg hc.1, attachF_none tgt sub cs hc.2]
/-- Forest version of `attachT_none`. -/
theorem attachF_none (tgt : Nat) (sub : Tree) :
    ∀ (f : Forest), containsSidF tgt f = false → attachF tgt sub f = none
  | .nil, _ => rfl
  | .cons t rest, hc => by
    simp only [containsSidF, Bool.or_eq_false_iff] at hc
    unfold attachF
    rw [attachT_none tgt sub t hc.1, attachF_none tgt sub rest hc.2]
end

/-- Detaching a sub-tree shrinks the forest by exactly the size of
the detached sub-tree: no other entity is dropped. -/
theorem detachF_size :
    ∀ (psid : Option Nat) (sid : Nat) (f : Forest) (p : Option Nat) (sub : Tree)
      (f' : Forest), detachF psid sid f = some (p, sub, f') →
      sizeF f' + sizeT sub = sizeF f
  | psid, sid, .nil, p, sub, f', h => by simp [detachF] at h
  | psid, sid, .cons (.node hh s comps cs) rest, p, sub, f', h => by
    unfold detachF at h
    split at h
    · simp only [Option.some.injEq, Prod.mk.injEq] at h
      obtain ⟨rfl, rfl, rfl⟩ := h
      simp only [sizeF]
      omega
    · split at h
      · next p1 sub1 cs' hcs =>
        simp only [Option.some.injEq, Prod.mk.injEq] at h
        obtain ⟨rfl, rfl, rfl⟩ := h
        have ih := detachF_size (some s) sid cs _ _ _ hcs
        simp only [sizeF, sizeT] at ih ⊢
        omega
      · split at h
        · next p1 sub1 rest' hrest =>
          simp only [Option.some.injEq, Prod.mk.injEq] at h
          obtain ⟨rfl, rfl, rfl⟩ := h
          have ih := detachF_size psid sid rest _ _ _ hrest
          simp only [sizeF] at ih ⊢
          omega
        · exact absurd h (by simp)

/-- The sub-tree `detachF` returns is rooted at the requested
StableId. -/
theorem detachF_sid :
    ∀ (psid : Option Nat) (sid : Nat) (f : Forest) (p : Option Nat) (sub : Tree)
      (f' : Forest), detachF psid sid f = some (p, sub, f') → sub.sid = sid
  | psid, sid, .nil, p, sub, f', h => by simp [detachF] at h
  | psid, sid, .cons (.node hh s comps cs) rest, p, sub, f', h => by
    unfold detachF at h
    split at h
    · next hs =>
      simp only [Option.some.injEq, Prod.mk.injEq] at h
      obtain ⟨rfl, rfl, rfl⟩ := h
      exact hs
    · split at h
      · next p1 sub1 cs' hcs =>
        simp only [Option.some.injEq, Prod.mk.injEq] at h
        obtain ⟨rfl, rfl, rfl⟩ := h
        exact detachF_sid (some s) sid cs _ _ _ hcs
      · split at h
        · next p1 sub1 rest' hrest =>
          simp only [Option.some.injEq, Prod.mk.injEq] at h
          obtain ⟨rfl, rfl, rfl⟩ := h
          exact detachF_sid psid sid rest _ _ _ hrest
        · exact absurd h (by simp)

/-- When `detachF` finds no entity with the StableId, neither does the
parent lookup. -/
theorem detachF_parentOf_none :
    ∀ (psid : Option Nat) (sid : Nat) (f : Forest), detachF psid sid f = none →
      parentOfF psid sid f = none
  | _, _, .nil, _ => rfl
  | psid, sid, .cons (.node hh s comps cs) rest, h => by
    unfold detachF at h
    split at h
    · exact absurd h (by simp)
    · next hs =>
      split at h
      · exact absurd h (by simp)
      · next hcs =>
        split at h
        · exact absurd h (by simp)
        · next hrest =>
          unfold parentOfF
          rw [if_neg hs, detachF_parentOf_none (some s) sid cs hcs,
            detachF_parentOf_none psid sid rest hrest]

/-- The parent StableId `detachF` returns agrees with the standalone
parent lookup `parentOfF` (§4.3 step 2): the recorded parent is the
picked entity's original parent. -/
theorem detachF_parentOf :
    ∀ (psid : Option Nat) (sid : Nat) (f : Forest) (p : Option Nat) (sub : Tree)
      (f' : Forest), detachF psid sid f = some (p, sub, f') →
      parentOfF psid sid f = some p
  | psid, sid, .nil, p, sub, f', h => by simp [detachF] at h
  | psid, sid, .cons (.node hh s comps cs) rest, p, sub, f', h => by
    unfold detachF at h
    unfold parentOfF
    split at h
    · next hs =>
      simp only [Option.some.injEq, Prod.mk.injEq] at h
      obtain ⟨rfl, rfl, rfl⟩ := h
      rw [if_pos hs]
    · next hs =>
      rw [if_neg hs]
      split at h
      · next p1 sub1 cs' hcs =>
        simp only [Option.some.injEq, Prod.mk.injEq] at h
        obtain ⟨rfl, rfl, rfl⟩ := h
        rw [detachF_parentOf (some s) sid cs _ _ _ hcs]
      · next hcs =>
        split at h
        · next p1 sub1 rest' hrest =>
          simp only [Option.some.injEq, Prod.mk.injEq] at h
          obtain ⟨rfl, rfl, rfl⟩ := h
          rw [detachF_parentOf_none (some s) sid cs hcs,
            detachF_parentOf psid sid rest _ _ _ hrest]
        · exact absurd h (by simp)

/-- Characterization: extract on a non-`Empty` store. -/
theorem extract_eq_alreadyStored (reg : List Nat) (w : SpecWorld) (sid : Nat)
    (h : w.store ≠ Store.Empty) :
    extract reg w sid = (w, some SErr.AlreadyStored) := by
  unfold extract
  cases hs : w.store with
  | Empty => exact absurd hs h
  | ReadyToSave t => rfl
  | Stored p t s => rfl

/-- Characterization: extract on an `Empty` store when the StableId
resolves to no live entity. -/
theorem extract_eq_noSuchEntity (reg : List Nat) (w : SpecWorld) (sid : Nat)
    (hE : w.store = Store.Empty) (hd : detachF none sid w.roots = none) :
    extract reg w sid = (w, some SErr.NoSuchEntity) := by
  unfold extract
  rw [hE, hd]

/-- Characterization: successful extract. -/
theorem extract_eq_success (reg : List Nat) (w : SpecWorld) (sid : Nat)
    (p : Option Nat) (t : Tree) (f' : Forest)
    (hE : w.store = Store.Empty) (hd : detachF none sid w.roots = some (p, t, f')) :
    extract reg w sid =
      ({ store := Store.Stored p sid (captureT reg t), roots := f',
         nextHandle := w.nextHandle }, none) := by
  unfold extract
  rw [hE, hd]

/-- Characterization: restore on an `Empty` store. -/
theorem restore_eq_nothingStored_empty (w : SpecWorld) (target : Option Nat)
    (hE : w.store = Store.Empty) :
    restore w target = (w, some SErr.NothingStored) := by
  unfold restore
  rw [hE]

/-- Characterization: restore on a `ReadyToSave` store. -/
theorem restore_eq_nothingStored_ready (w : SpecWorld) (target : Option Nat)
    (tg : Nat) (hR : w.store = Store.ReadyToSave tg) :
    restore w target = (w, some SErr.NothingStored) := by
  unfold restore
  rw [hR]

/-- Characterization: successful restore. -/
theorem restore_eq_success (w : SpecWorld) (target : Option Nat)
    (p : Option Nat) (tg : Nat) (snap : SceneNode)
    (hS : w.store = Store.Stored p tg snap) :
    restore w target =
      ({ store := Store.Empty,
         roots := attach target (recreateS snap w.nextHandle).1 w.roots,
         nextHandle := (recreateS snap w.nextHandle).2 }, none) := by
  unfold restore
  rw [hS]

end SpecModel

namespace Main

/-- No system writes the store: a single step preserves `sceneStore`. -/
theorem sysStep_store_eq {w w' : AppWorld} (h : SysStep w w') :
    w'.sceneStore = w.sceneStore := by
  cases h <;> rfl

/-- In every reachable world the store is still its initial `Empty`. -/
theorem reach_store_empty {w : AppWorld} (h : Reach w) :
    w.sceneStore = SceneStoreResource.Empty := by
  induction h with
  | init => rfl
  | step _ hs ih => rw [sysStep_store_eq hs, ih]

/-- **C2** (code bug): the three scene entities spawned at startup —
plane, cube and torus — are pairwise distinct live entities, yet all
three carry the same StableId `AppId::default()` (the nil UUID),
because `sys_setup_scene` attaches `AppId::default()` to each spawn
instead of a freshly generated random 128-bit value.  This refutes
the claimed StableId distinctness on the code as written. -/
theorem startup_stableIds_collide :
    ∃ e1 ∈ startupWorld.entities, ∃ e2 ∈ startupWorld.entities,
      ∃ e3 ∈ startupWorld.entities,
      e1.kind = EntityKind.plane ∧ e2.kind = EntityKind.cube ∧
      e3.kind = EntityKind.torus ∧
      e1.eid ≠ e2.eid ∧ e1.eid ≠ e3.eid ∧ e2.eid ≠ e3.eid ∧
      e1.appId = some AppId.default ∧ e2.appId = some AppId.default ∧
      e3.appId = some AppId.default := by
  refine ⟨⟨6, .plane, some AppId.default, none, false⟩, ?_,
    ⟨7, .cube, some AppId.default, none, false⟩, ?_,
    ⟨8, .torus, some AppId.default, some 7, false⟩, ?_,
    rfl, rfl, rfl, ?_, ?_, ?_, rfl, rfl, rfl⟩ <;> decide

/-- **C8.** The store never enters `ReadyToSave`: in every state
reachable by executing the program's systems from the initial state,
the `SceneStoreResource` is not `ReadyToSave` (the variant is
declared but no working code transitions into it). -/
theorem store_never_readyToSave {w : AppWorld} (h : Reach w) (t : AppId) :
    w.sceneStore ≠ SceneStoreResource.ReadyToSave t := by
  rw [reach_store_empty h]
  simp

/-- Witness for `store_never_readyToSave` at the post-startup world
and the nil `AppId`. -/
theorem store_never_readyToSave_witness :
    startupWorld.sceneStore ≠ SceneStoreResource.ReadyToSave AppId.default :=
  store_never_readyToSave
    (Reach.step (Reach.step Reach.init (SysStep.setupUi initWorld))
      (SysStep.setupScene (sys_setup_ui initWorld)))
    AppId.default

/-- **C9.** The `SceneStoreResource` is initialized to `Empty` and no
system ever writes another value, so in every reachable world the
store is `Empty`. -/
theorem store_always_empty {w : AppWorld} (h : Reach w) :
    initWorld.sceneStore = SceneStoreResource.Empty ∧
    w.sceneStore = SceneStoreResource.Empty :=
  ⟨rfl, reach_store_empty h⟩

/-- Witness for `store_always_empty` after startup and one click of
the "To Dynamic Scene" button. -/
theorem store_always_empty_witness :
    initWorld.sceneStore = SceneStoreResource.Empty ∧
    (sys_on_to_dynamic_scene startupWorld).sceneStore
      = SceneStoreResource.Empty :=
  store_always_empty
    (Reach.step
      (Reach.step (Reach.step Reach.init (SysStep.setupUi initWorld))
        (SysStep.setupScene (sys_setup_ui initWorld)))
      (SysStep.click startupWorld))

/-- **C10.** Running `sys_on_to_dynamic_scene` — the only registered
click handler — leaves the world unchanged: the store, the live
entity list (hence hierarchy and component values) and the handle
counter are identical before and after. -/
theorem click_handler_is_noop (w : AppWorld) :
    sys_on_to_dynamic_scene w = w ∧
    (sys_on_to_dynamic_scene w).sceneStore = w.sceneStore ∧
    (sys_on_to_dynamic_scene w).entities = w.entities ∧
    (sys_on_to_dynamic_scene w).nextEid = w.nextEid :=
  ⟨rfl, rfl, rfl, rfl⟩

end Main

namespace SpecModel

/-- **C1.** Round-trip: when the store is `Empty`, the picked
StableId resolves to the live sub-tree `t`, and every component kind
in `t` is registered, then extract succeeds, a subsequent restore (at
any target) succeeds, and the live scene afterwards contains a
sub-tree with exactly the StableId topology, component payloads and
entity count of `t` — no entity dropped. -/
theorem extract_restore_roundtrip (reg : List Nat) (w : SpecWorld) (sid : Nat)
    (target : Option Nat) (p : Option Nat) (t : Tree) (f' : Forest)
    (hE : w.store = Store.Empty)
    (hd : detachF none sid w.roots = some (p, t, f'))
    (hreg : allRegT reg t = true) :
    (extract reg w sid).2 = none ∧
    (restore (extract reg w sid).1 target).2 = none ∧
    ∃ t', memF t' (restore (extract reg w sid).1 target).1.roots ∧
      shapeT t' = shapeT t ∧ sizeT t' = sizeT t := by
  have hex := extract_eq_success reg w sid p t f' hE hd
  have hst : (extract reg w sid).1.store = Store.Stored p sid (captureT reg t) := by
    rw [hex]
  have hres := restore_eq_success (extract reg w sid).1 target p sid
    (captureT reg t) hst
  refine ⟨by rw [hex], by rw [hres],
    (recreateS (captureT reg t) (extract reg w sid).1.nextHandle).1, ?_, ?_, ?_⟩
  · rw [hres]
    exact attach_mem target _ _
  · rw [shapeT_recreateS, captureT_eq_shapeT reg t hreg]
  · calc sizeT (recreateS (captureT reg t) (extract reg w sid).1.nextHandle).1
        = sizeS (shapeT (recreateS (captureT reg t)
            (extract reg w sid).1.nextHandle).1) := (sizeS_shapeT _).symm
      _ = sizeS (captureT reg t) := by rw [shapeT_recreateS]
      _ = sizeS (shapeT t) := by rw [captureT_eq_shapeT reg t hreg]
      _ = sizeT t := sizeS_shapeT t

/-- Witness for `extract_restore_roundtrip`: extracting StableId 7
from the sample world and restoring at the scene root. -/
theorem extract_restore_roundtrip_witness :
    (extract sampleReg sampleWorld 7).2 = none ∧
    (restore (extract sampleReg sampleWorld 7).1 none).2 = none ∧
    ∃ t', memF t' (restore (extract sampleReg sampleWorld 7).1 none).1.roots ∧
      shapeT t' = shapeT sampleTree ∧ sizeT t' = sizeT sampleTree :=
  extract_restore_roundtrip sampleReg sampleWorld 7 none (some 5) sampleTree
    (Forest.cons (Tree.node 9 5 [(1, [1])] Forest.nil) Forest.nil) rfl rfl rfl

/-- **C3.** Extract invoked while the store is not `Empty`
(`ReadyToSave` or `Stored`) fails with `AlreadyStored` and returns
the world — store state included — unchanged. -/
theorem extract_notEmpty_alreadyStored (reg : List Nat) (w : SpecWorld)
    (sid : Nat) (h : w.store ≠ Store.Empty) :
    extract reg w sid = (w, some SErr.AlreadyStored) :=
  extract_eq_alreadyStored reg w sid h

/-- Witness for `extract_notEmpty_alreadyStored` on a `ReadyToSave`
store. -/
theorem extract_notEmpty_alreadyStored_witness :
    extract sampleReg readyWorld 7 = (readyWorld, some SErr.AlreadyStored) :=
  extract_notEmpty_alreadyStored sampleReg readyWorld 7 (by decide)

/-- **C4.** Restore invoked while the store is `Empty` fails with
`NothingStored` (and changes nothing); a successful restore from
`Stored` reports no error and transitions the store to `Empty`. -/
theorem restore_state_machine (w : SpecWorld) (target : Option Nat)
    (p : Option Nat) (tg : Nat) (snap : SceneNode) :
    (w.store = Store.Empty → restore w target = (w, some SErr.NothingStored)) ∧
    (w.store = Store.Stored p tg snap →
      (restore w target).2 = none ∧ (restore w target).1.store = Store.Empty) := by
  refine ⟨fun hE => restore_eq_nothingStored_empty w target hE, fun hS => ?_⟩
  rw [restore_eq_success w target p tg snap hS]
  exact ⟨rfl, rfl⟩

/-- Witness for `restore_state_machine`: a rejected restore on the
empty sample world, and a successful restore on the stored sample
world. -/
theorem restore_state_machine_witness :
    restore sampleWorld none = (sampleWorld, some SErr.NothingStored) ∧
    ((restore storedWorld none).2 = none ∧
      (restore storedWorld none).1.store = Store.Empty) :=
  ⟨(restore_state_machine sampleWorld none (some 5) 7 sampleSnap).1 rfl,
   (restore_state_machine storedWorld none (some 5) 7 sampleSnap).2 rfl⟩

/-- **C5.** A successful extract (store `Empty`, picked StableId
live) transitions the store to `Stored{parent, target, snapshot}`
with the picked entity's original parent, removes exactly the
captured sub-tree from the live scene, and the detached sub-tree is
rooted at the picked StableId. -/
theorem extract_success_effects (reg : List Nat) (w : SpecWorld) (sid : Nat)
    (p : Option Nat) (t : Tree) (f' : Forest)
    (hE : w.store = Store.Empty)
    (hd : detachF none sid w.roots = some (p, t, f')) :
    extract reg w sid =
      ({ store := Store.Stored p sid (captureT reg t), roots := f',
         nextHandle := w.nextHandle }, none) ∧
    sizeF f' + sizeT t = sizeF w.roots ∧
    t.sid = sid ∧
    parentOfF none sid w.roots = some p :=
  ⟨extract_eq_success reg w sid p t f' hE hd,
   detachF_size none sid w.roots p t f' hd,
   detachF_sid none sid w.roots p t f' hd,
   detachF_parentOf none sid w.roots p t f' hd⟩

/-- Witness for `extract_success_effects` on the sample world. -/
theorem extract_success_effects_witness :
    extract sampleReg sampleWorld 7 =
      ({ store := Store.Stored (some 5) 7 (captureT sampleReg sampleTree),
         roots := Forest.cons (Tree.node 9 5 [(1, [1])] Forest.nil) Forest.nil,
         nextHandle := 20 }, none) ∧
    sizeF (Forest.cons (Tree.node 9 5 [(1, [1])] Forest.nil) Forest.nil) +
      sizeT sampleTree = sizeF sampleWorld.roots ∧
    sampleTree.sid = 7 ∧
    parentOfF none 7 sampleWorld.roots = some (some 5) :=
  extract_success_effects sampleReg sampleWorld 7 (some 5) sampleTree
    (Forest.cons (Tree.node 9 5 [(1, [1])] Forest.nil) Forest.nil) rfl rfl

/-- **C6.** Atomicity of failure: whenever extract or restore reports
an error, the returned world — store, live entities, hierarchy,
component payloads and handle counter — is the input world. -/
theorem failed_ops_leave_world_unchanged (reg : List Nat) (w : SpecWorld)
    (sid : Nat) (target : Option Nat) (e1 e2 : SErr) :
    ((extract reg w sid).2 = some e1 → (extract reg w sid).1 = w) ∧
    ((restore w target).2 = some e2 → (restore w target).1 = w) := by
  refine ⟨fun he => ?_, fun he => ?_⟩
  · by_cases hs : w.store = Store.Empty
    · cases hd : detachF none sid w.roots with
      | none => rw [extract_eq_noSuchEntity reg w sid hs hd]
      | some v =>
        obtain ⟨p, t, f'⟩ := v
        rw [extract_eq_success reg w sid p t f' hs hd] at he
        simp at he
    · rw [extract_eq_alreadyStored reg w sid hs]
  · cases hst : w.store with
    | Empty => rw [restore_eq_nothingStored_empty w target hst]
    | ReadyToSave tg => rw [restore_eq_nothingStored_ready w target tg hst]
    | Stored p tg snap =>
      rw [restore_eq_success w target p tg snap hst] at he
      simp at he

/-- Witness for `failed_ops_leave_world_unchanged`: a rejected
extract on `readyWorld` and a rejected restore on `sampleWorld`. -/
theorem failed_ops_leave_world_unchanged_witness :
    (extract sampleReg readyWorld 7).1 = readyWorld ∧
    (restore sampleWorld none).1 = sampleWorld :=
  ⟨(failed_ops_leave_world_unchanged sampleReg readyWorld 7 none
      SErr.AlreadyStored SErr.NothingStored).1 rfl,
   (failed_ops_leave_world_unchanged sampleReg sampleWorld 7 none
      SErr.AlreadyStored SErr.NothingStored).2 rfl⟩

/-- **C7.** Orphan fallback: with a snapshot stored, restore with no
target and restore with a target StableId that resolves to no live
entity both succeed, produce identical worlds, and attach the
recreated sub-tree at the scene root (appended after the existing
roots). -/
theorem restore_orphan_fallback (w : SpecWorld) (p : Option Nat) (tg : Nat)
    (snap : SceneNode) (tgt : Nat)
    (hst : w.store = Store.Stored p tg snap)
    (hdead : containsSidF tgt w.roots = false) :
    (restore w (some tgt)).2 = none ∧
    (restore w none).2 = none ∧
    restore w (some tgt) = restore w none ∧
    (restore w none).1.roots = appendF w.roots (recreateS snap w.nextHandle).1 := by
  have h1 := restore_eq_success w (some tgt) p tg snap hst
  have h2 := restore_eq_success w none p tg snap hst
  have ha : attach (some tgt) (recreateS snap w.nextHandle).1 w.roots
      = attach none (recreateS snap w.nextHandle).1 w.roots := by
    simp only [attach, attachF_none tgt _ w.roots hdead]
  refine ⟨by rw [h1], by rw [h2], by rw [h1, h2, ha], by rw [h2]; rfl⟩

/-- Witness for `restore_orphan_fallback`: restoring the stored
sample snapshot with the dead target StableId 99. -/
theorem restore_orphan_fallback_witness :
    (restore storedWorld (some 99)).2 = none ∧
    (restore storedWorld none).2 = none ∧
    restore storedWorld (some 99) = restore storedWorld none ∧
    (restore storedWorld none).1.roots
      = appendF storedWorld.roots (recreateS sampleSnap storedWorld.nextHandle).1 :=
  restore_orphan_fallback storedWorld (some 5) 7 sampleSnap 99 rfl rfl

end SpecModel
